import Mathlib

/-!
Verification of the StarlitStories conversation pipeline and its React client.

The repository ships the React client (`frontend/src/App-simple.tsx`, the
`FlipCard` component and the axios API client) as source; the Python/LangGraph
backend (router, generator, validator, formatter) is described only by the
specification, so those parts are modelled from the spec and marked as such.
-/

/- ### Backend pipeline, modelled from the spec -/

/-- Modelled from the spec: the (title, body) text pair produced by one
invocation of the StoryGenerator via the LanguageModelGateway. The backend
source is not in the repository; this follows §4.4 of the spec. -/
structure StoryContent where
  title : String
  body : String
deriving DecidableEq, Repr

/-- Modelled from the spec: result of SafetyValidator (§3 ValidationVerdict):
accepted flag plus the violation reasons fed back as negative constraints. -/
structure ValidationVerdict where
  accepted : Bool
  reasons : List String
deriving DecidableEq, Repr

/-- Modelled from the spec: a StoryDraft (§3) as it stands after one
generation attempt inside the retry loop. -/
structure StoryDraft where
  title : String
  body : String
  attempt_count : Nat
  rejection_reasons : List String
deriving DecidableEq, Repr

/-- Modelled from the spec: terminal outcome of the §4.4 state machine. -/
inductive LoopOutcome
  | accepted (draft : StoryDraft)
  | exhausted
deriving DecidableEq, Repr

/-- Modelled from the spec: what the retry loop delivers to the formatter:
the terminal outcome, the number of generation attempts performed, and the
rejected drafts accumulated along the way. -/
structure LoopResult where
  outcome : LoopOutcome
  attempts : Nat
  rejected : List StoryDraft
deriving DecidableEq, Repr

/-- Modelled from the spec: one pass of the §4.4 `Drafting → Validating`
state machine, starting from a given `attempt_count`. Drafting invokes the
generator with the accumulated constraints and increments `attempt_count`;
if the validator rejects and the incremented count is still strictly below
`max_iterations` the loop retries with the rejection reasons appended,
otherwise it is `Exhausted`. -/
def retryLoopAux (gen : Nat → List String → StoryContent)
    (validate : StoryContent → ValidationVerdict) (max_iterations : Nat)
    (attempt_count : Nat) (constraints : List String)
    (rejected : List StoryDraft) : LoopResult :=
  let content := gen attempt_count constraints
  let draft : StoryDraft :=
    ⟨content.title, content.body, attempt_count + 1, constraints⟩
  let verdict := validate content
  if verdict.accepted then
    ⟨LoopOutcome.accepted draft, attempt_count + 1, rejected⟩
  else if _h : attempt_count + 1 < max_iterations then
    retryLoopAux gen validate max_iterations (attempt_count + 1)
      (constraints ++ verdict.reasons) (rejected ++ [draft])
  else
    ⟨LoopOutcome.exhausted, attempt_count + 1, rejected ++ [draft]⟩
termination_by max_iterations - attempt_count
decreasing_by simp_wf; omega

/-- Modelled from the spec: the full retry loop of §4.4 — `attempt_count`
starts at 0 before the first draft, with no constraints and no rejected
drafts accumulated. -/
def retryLoop (gen : Nat → List String → StoryContent)
    (validate : StoryContent → ValidationVerdict)
    (max_iterations : Nat) : LoopResult :=
  retryLoopAux gen validate max_iterations 0 [] []

/-- Modelled from the spec: the §3 FormattedResponse contract returned to the
external caller. -/
inductive FormattedResponse
  | StoryResult (title story moral thread_id : String)
  | ConversationalResult (text thread_id : String)
  | ErrorResult (message : String)
deriving DecidableEq, Repr

/-- Modelled from the spec: the fixed gentle in-character refusal the §7
`ValidationExhausted` handling surfaces instead of the rejected content. -/
def exhaustedRefusal : String :=
  "I could not find a story gentle enough for tonight. Shall we try a different idea together?"

/-- Modelled from the spec: the ResponseFormatter branch (§4.7, §7) that turns
a finished retry loop into the response: an accepted draft becomes a
StoryResult, an exhausted loop becomes the fixed conversational refusal. -/
def formatLoopResult (r : LoopResult) (moral : String) (thread_id : String) :
    FormattedResponse :=
  match r.outcome with
  | LoopOutcome.accepted d => FormattedResponse.StoryResult d.title d.body moral thread_id
  | LoopOutcome.exhausted => FormattedResponse.ConversationalResult exhaustedRefusal thread_id

/-- The thread id carried by a formatted response, when it is not an error. -/
def FormattedResponse.threadIdOf : FormattedResponse → Option String
  | FormattedResponse.StoryResult _ _ _ t => Option.some t
  | FormattedResponse.ConversationalResult _ t => Option.some t
  | FormattedResponse.ErrorResult _ => Option.none

/-- The user-visible text of a formatted response. -/
def FormattedResponse.textOf : FormattedResponse → String
  | FormattedResponse.StoryResult _ s _ _ => s
  | FormattedResponse.ConversationalResult t _ => t
  | FormattedResponse.ErrorResult m => m

/-- Substring test: `strContains h n` is true when `n` occurs as a
contiguous substring of `h`, computed over the underlying character lists. -/
def strContains (haystack needle : String) : Bool :=
  decide (needle.data <:+: haystack.data)

/-- Modelled from the spec: the pattern checks the §4.3 IntentRouter consults,
kept abstract because the actual patterns live in opaque prompt templates:
a farewell match, a greeting match, a named-classic lookup, and a
modification-phrasing match. -/
structure RouterPatterns where
  isFarewell : String → Bool
  isGreeting : String → Bool
  classicQuery : String → Option String
  isModification : String → Bool

/-- Modelled from the spec: the §3 ClassifiedIntent variants. -/
inductive ClassifiedIntent
  | NewStory (theme_hint : String)
  | ModifyStory (modification_hint : String)
  | RetrieveClassic (query : String)
  | Greeting
  | Farewell
  | Other (raw_text : String)
deriving DecidableEq, Repr

/-- Modelled from the spec: the §4.3 IntentRouter decision policy in priority
order — farewell, then greeting, then named classic, then (only when the
thread has a live story) modification, else a new story with the input as
theme hint. -/
def classifyIntent (p : RouterPatterns) (input : String)
    (has_live_story : Bool) : ClassifiedIntent :=
  if p.isFarewell input then ClassifiedIntent.Farewell
  else if p.isGreeting input then ClassifiedIntent.Greeting
  else
    match p.classicQuery input with
    | Option.some q => ClassifiedIntent.RetrieveClassic q
    | Option.none =>
      if has_live_story && p.isModification input then
        ClassifiedIntent.ModifyStory input
      else ClassifiedIntent.NewStory input

/- ### React client, from `frontend/src/App-simple.tsx` and the API client -/

/-- JavaScript whitespace test used by `String.prototype.trim`, restricted to
the common whitespace code points. -/
def isJsWhitespace (c : Char) : Bool :=
  c.toNat == 32 || c.toNat == 9 || c.toNat == 10 ||
  c.toNat == 13 || c.toNat == 12 || c.toNat == 11

/-- The `input.trim()` call of the client: strip leading and trailing
whitespace. -/
def jsTrim (s : String) : String :=
  String.mk (((s.data.dropWhile isJsWhitespace).reverse.dropWhile
    isJsWhitespace).reverse)

/-- JavaScript truthiness of an optional string: `undefined`/`null` and the
empty string are falsy. -/
def truthy : Option String → Bool
  | Option.none => false
  | Option.some s => !(s == "")

/-- JavaScript `s || d` on strings: the empty string falls back to `d`. -/
def jsOrS (s d : String) : String :=
  if s == "" then d else s

/-- JavaScript `o || d` on an optional string. -/
def jsOr (o : Option String) (d : String) : String :=
  match o with
  | Option.some s => jsOrS s d
  | Option.none => d

/-- The `threadId || undefined` idiom: an absent or empty string becomes
`undefined`. -/
def orUndefined (o : Option String) : Option String :=
  if truthy o then o else Option.none

/-- Message role, from the `Message` interface of `App-simple.tsx`. -/
inductive Role
  | user
  | assistant
deriving DecidableEq, Repr

/-- The optional `story` payload of a `Message`: title, text and moral shown
on the flip card. -/
structure StoryCard where
  title : String
  text : String
  moral : String
deriving DecidableEq, Repr

/-- The `Message` interface of `App-simple.tsx`. -/
structure Message where
  id : String
  role : Role
  content : String
  story : Option StoryCard
deriving DecidableEq, Repr

/-- The React state of the `App` component: `messages`, `input`,
`isGenerating` and the conversation `threadId`. -/
structure ClientState where
  messages : List Message
  input : String
  isGenerating : Bool
  threadId : Option String
deriving DecidableEq, Repr

/-- The `StoryResponse` payload of the API client, with each field optional
at the wire boundary so that JavaScript truthiness checks are meaningful. -/
structure BackendResponse where
  success : Bool
  story : Option String
  title : Option String
  moral : Option String
  error : Option String
  thread_id : Option String
deriving DecidableEq, Repr

/-- What the HTTP POST to `/generate_story` comes back with: either a decoded
response body, or a thrown error (network failure, timeout, non-2xx). -/
inductive RequestOutcome
  | httpResponse (r : BackendResponse)
  | httpFailure (err : String)
deriving DecidableEq, Repr

/-- The `StoryRequest` payload sent by the API client. -/
structure StoryRequest where
  user_input : String
  length_tier : String
  thread_id : Option String
deriving DecidableEq, Repr

/-- The intermediate record `generateStoryFromBackend` resolves with. -/
structure StoryData where
  title : Option String
  text : String
  moral : Option String
  isConversational : Bool
deriving DecidableEq, Repr

/-- The fixed apology message the `handleSubmit` catch branch appends. -/
def errorText : String :=
  "Sorry, I encountered an error generating your story. Please try again with a different request."

/-- The response-handling core of `generateStoryFromBackend`: update the
stored thread id when the response carries a truthy one, then either build
`StoryData` (story when `title` is truthy, conversational otherwise) or
throw the `error` field with its fixed fallback text. A transport failure
propagates the thrown error with no thread-id update. -/
def processBackend (threadId : Option String) (o : RequestOutcome) :
    Option String × Except String StoryData :=
  match o with
  | RequestOutcome.httpFailure err => (threadId, Except.error err)
  | RequestOutcome.httpResponse r =>
    let tid := if truthy r.thread_id then r.thread_id else threadId
    if r.success && truthy r.story then
      if truthy r.title then
        (tid, Except.ok ⟨r.title, r.story.getD "", r.moral, false⟩)
      else
        (tid, Except.ok ⟨Option.none, r.story.getD "", Option.none, true⟩)
    else
      (tid, Except.error (jsOr r.error "Failed to generate story"))

/-- The user message `handleSubmit` appends before contacting the backend. -/
def userMessage (now : Nat) (content : String) : Message :=
  ⟨toString now, Role.user, content, Option.none⟩

/-- The assistant message built from resolved `StoryData`: conversational
replies show their text in `content` with no `story` payload; stories show
the title (with its fixed fallback) and carry the flip-card payload. -/
def assistantMessage (now : Nat) (sd : StoryData) : Message :=
  { id := toString (now + 1)
    role := Role.assistant
    content := if sd.isConversational then sd.text else jsOr sd.title "Story Generated"
    story := if sd.isConversational then Option.none
             else Option.some ⟨jsOr sd.title "", jsOrS sd.text "", jsOr sd.moral ""⟩ }

/-- The fixed error message appended by the catch branch of `handleSubmit`. -/
def errorMessage (now : Nat) : Message :=
  ⟨toString (now + 1), Role.assistant, errorText, Option.none⟩

/-- One run of `handleSubmit` given the outcome the backend call would have:
bail out when the trimmed input is empty or a request is in flight
(returning the state unchanged and issuing no request); otherwise append the
user message, clear the input, send the request built from the trimmed input
and the stored thread id, process the backend outcome, append either the
assistant message or the fixed error message, and clear `isGenerating`. The
second component is the request issued, if any. -/
def clientStep (s : ClientState) (o : RequestOutcome) (now : Nat) :
    ClientState × Option StoryRequest :=
  if jsTrim s.input = "" ∨ s.isGenerating = true then (s, Option.none)
  else
    let req : StoryRequest :=
      ⟨jsTrim s.input, "medium", orUndefined s.threadId⟩
    let s1 : ClientState :=
      { s with messages := s.messages ++ [userMessage now (jsTrim s.input)],
               input := "", isGenerating := true }
    let pb := processBackend s1.threadId o
    let s2 : ClientState := { s1 with threadId := pb.1 }
    match pb.2 with
    | Except.ok sd =>
      ({ s2 with messages := s2.messages ++ [assistantMessage now sd],
                 isGenerating := false }, Option.some req)
    | Except.error _ =>
      ({ s2 with messages := s2.messages ++ [errorMessage now],
                 isGenerating := false }, Option.some req)

/-- Typing into the input box (the `onChange` handler). -/
def setInput (s : ClientState) (i : String) : ClientState :=
  { s with input := i }

/-- Classifies a backend outcome as failing for the client: a transport
failure, or a decoded response without `success` and a truthy `story`. -/
def isFailureOutcome (o : RequestOutcome) : Bool :=
  match o with
  | RequestOutcome.httpFailure _ => true
  | RequestOutcome.httpResponse r => !(r.success && truthy r.story)

/-- How the `App` render tree shows an assistant message: a flip card when
the message carries a `story` payload, a plain bubble of its `content`
otherwise. -/
inductive Rendered
  | card (title text moral : String)
  | bubble (text : String)
deriving DecidableEq, Repr

/-- The assistant branch of the message render in `App-simple.tsx`. -/
def renderAssistant (m : Message) : Rendered :=
  match m.story with
  | Option.some st => Rendered.card st.title st.text st.moral
  | Option.none => Rendered.bubble m.content

/-- A `FlipCard` mounts with `isFlipped = false`. -/
def flipCardInit : Bool := false

/-- The `contextmenu` handler of `FlipCard`: toggle `isFlipped`. -/
def handleContextMenu (isFlipped : Bool) : Bool := !isFlipped

/-- The flipped state after `n` right-clicks from a fresh mount. -/
def rightClicks : Nat → Bool
  | 0 => flipCardInit
  | Nat.succ n => handleContextMenu (rightClicks n)

/-- Which face of the flip card is shown: the front holds the story, the
back holds the moral, and the flipped state shows the back. -/
inductive CardSide
  | story
  | moral
deriving DecidableEq, Repr

/-- The face shown for a given flipped state. -/
def displaySide (isFlipped : Bool) : CardSide :=
  if isFlipped then CardSide.moral else CardSide.story

/-- The hard-coded fallback prompts of `getExamples`. -/
def fallbackExamples : List String :=
  ["Tell me a story about a brave little mouse",
   "I want to hear about a friendly dragon who loves to bake",
   "Create a story about a curious star exploring the night sky"]

/-- The `getExamples` client call: resolve with the examples array of the HTTP response, or
with the fixed fallback list when the GET fails. -/
def getExamples (httpResult : Except String (List String)) : List String :=
  match httpResult with
  | Except.ok exs => exs
  | Except.error _ => fallbackExamples

/- ### Helper lemmas -/

/-- With an always-rejecting validator, the retry loop started below the
bound finishes with exactly `max_iterations` attempts in the exhausted
state. -/
theorem retryLoopAux_reject_all (gen : Nat → List String → StoryContent)
    (validate : StoryContent → ValidationVerdict) (max_iterations : Nat)
    (hrej : ∀ c, (validate c).accepted = false) :
    ∀ n attempt_count constraints rejected,
      max_iterations - attempt_count = n →
      attempt_count < max_iterations →
      (retryLoopAux gen validate max_iterations attempt_count constraints
        rejected).attempts = max_iterations ∧
      (retryLoopAux gen validate max_iterations attempt_count constraints
        rejected).outcome = LoopOutcome.exhausted := by
  intro n
  induction n with
  | zero =>
    intro ac cs rej hfuel hlt
    omega
  | succ n ih =>
    intro ac cs rej hfuel hlt
    rw [retryLoopAux]
    simp only [hrej, Bool.false_eq_true, if_false]
    by_cases h : ac + 1 < max_iterations
    · rw [dif_pos h]
      exact ih (ac + 1) _ _ (by omega) h
    · rw [dif_neg h]
      have hmax : ac + 1 = max_iterations := by omega
      simp [hmax]

/-- A string strictly longer than the haystack never occurs inside it. -/
theorem strContains_eq_false_of_lt (h n : String)
    (hlen : h.length < n.length) : strContains h n = false := by
  unfold strContains
  rw [decide_eq_false_iff_not]
  intro hinf
  have hle := hinf.length_le
  simp only [String.length] at hlen
  omega

/-- Falling back to the empty string is the identity: `jsOrS s ""` is `s`. -/
theorem jsOrS_empty (s : String) : jsOrS s "" = s := by
  unfold jsOrS
  by_cases h : s = "" <;> simp [h]

/-- On an optional string, `jsOr o ""` coincides with `Option.getD o ""`. -/
theorem jsOr_empty (o : Option String) : jsOr o "" = o.getD "" := by
  cases o <;> simp [jsOr, jsOrS_empty]

/-- A truthy optional string survives `orUndefined` unchanged. -/
theorem orUndefined_of_truthy (o : Option String) (h : truthy o = true) :
    orUndefined o = o := by
  unfold orUndefined
  rw [h]
  simp

/-- The flipped state after `n` right-clicks is the parity of `n`. -/
theorem rightClicks_parity (n : Nat) : rightClicks n = decide (n % 2 = 1) := by
  induction n with
  | zero => rfl
  | succ n ih =>
    by_cases h : n % 2 = 1
    · have h2 : (n + 1) % 2 = 0 := by omega
      simp [rightClicks, handleContextMenu, ih, h, h2]
    · have h1 : (n + 1) % 2 = 1 := by omega
      simp [rightClicks, handleContextMenu, ih, h, h1]

/- ### Claims -/

/-- C1: with `max_iterations = N ≥ 1` and a validator that rejects every
draft, the §4.4 loop performs exactly `N` generation attempts (the counter
starting at 0 and compared strictly against the bound after each increment)
and terminates in the `Exhausted` state; in particular `N = 1` means exactly
one attempt with no retry. -/
theorem retry_loop_exhausts_after_exactly_max_iterations
    (gen : Nat → List String → StoryContent)
    (validate : StoryContent → ValidationVerdict) (N : Nat)
    (hrej : ∀ c, (validate c).accepted = false) (hN : 1 ≤ N) :
    (retryLoop gen validate N).attempts = N ∧
    (retryLoop gen validate N).outcome = LoopOutcome.exhausted :=
  retryLoopAux_reject_all gen validate N hrej (N - 0) 0 [] [] rfl (by omega)

/-- Witness for C1 at `max_iterations = 1`: one attempt, no retry. -/
theorem retry_loop_exhausts_after_exactly_max_iterations_witness :
    (∀ c, ((fun _ : StoryContent => ValidationVerdict.mk false ["scary"]) c).accepted
      = false) ∧
    1 ≤ 1 ∧
    (retryLoop (fun _ _ => ⟨"A Night Tale", "body text"⟩)
      (fun _ => ValidationVerdict.mk false ["scary"]) 1).attempts = 1 ∧
    (retryLoop (fun _ _ => ⟨"A Night Tale", "body text"⟩)
      (fun _ => ValidationVerdict.mk false ["scary"]) 1).outcome
      = LoopOutcome.exhausted :=
  ⟨fun _ => rfl, by decide,
    retry_loop_exhausts_after_exactly_max_iterations _ _ 1 (fun _ => rfl) (by decide)⟩

/-- C2: a validation loop ending in the `Exhausted` state is surfaced as the
fixed conversational refusal: the formatted response is a
`ConversationalResult` whose text is the constant `exhaustedRefusal`, so no
rejected draft body or title longer than the refusal can occur inside it —
the rejected content is discarded. -/
theorem exhausted_response_is_fixed_refusal (r : LoopResult)
    (moral tid : String) (h : r.outcome = LoopOutcome.exhausted) :
    formatLoopResult r moral tid
      = FormattedResponse.ConversationalResult exhaustedRefusal tid ∧
    ∀ d ∈ r.rejected,
      (exhaustedRefusal.length < d.body.length →
        strContains (formatLoopResult r moral tid).textOf d.body = false) ∧
      (exhaustedRefusal.length < d.title.length →
        strContains (formatLoopResult r moral tid).textOf d.title = false) := by
  have hfmt : formatLoopResult r moral tid
      = FormattedResponse.ConversationalResult exhaustedRefusal tid := by
    unfold formatLoopResult
    rw [h]
  refine ⟨hfmt, fun d _ => ⟨fun hlen => ?_, fun hlen => ?_⟩⟩
  · rw [hfmt]
    exact strContains_eq_false_of_lt _ _ hlen
  · rw [hfmt]
    exact strContains_eq_false_of_lt _ _ hlen

/-- Witness for C2 on a concrete exhausted loop result. -/
theorem exhausted_response_is_fixed_refusal_witness :
    (LoopResult.mk LoopOutcome.exhausted 1
        [StoryDraft.mk "Rejected Title" "rejected body" 1 []]).outcome
      = LoopOutcome.exhausted ∧
    (formatLoopResult
        (LoopResult.mk LoopOutcome.exhausted 1
          [StoryDraft.mk "Rejected Title" "rejected body" 1 []]) "m" "tid-1"
      = FormattedResponse.ConversationalResult exhaustedRefusal "tid-1" ∧
    ∀ d ∈ (LoopResult.mk LoopOutcome.exhausted 1
        [StoryDraft.mk "Rejected Title" "rejected body" 1 []]).rejected,
      (exhaustedRefusal.length < d.body.length →
        strContains (formatLoopResult
          (LoopResult.mk LoopOutcome.exhausted 1
            [StoryDraft.mk "Rejected Title" "rejected body" 1 []]) "m"
          "tid-1").textOf d.body = false) ∧
      (exhaustedRefusal.length < d.title.length →
        strContains (formatLoopResult
          (LoopResult.mk LoopOutcome.exhausted 1
            [StoryDraft.mk "Rejected Title" "rejected body" 1 []]) "m"
          "tid-1").textOf d.title = false)) :=
  ⟨rfl, exhausted_response_is_fixed_refusal _ "m" "tid-1" rfl⟩

/-- C3: on a thread with no live story the router never yields `ModifyStory`;
an input on which the farewell, greeting and classic checks of steps 1-3 all
fail is classified `NewStory`, whether or not it matches the modification
pattern. -/
theorem router_no_modify_without_live_story (p : RouterPatterns)
    (input : String) (h1 : p.isFarewell input = false)
    (h2 : p.isGreeting input = false)
    (h3 : p.classicQuery input = Option.none) :
    classifyIntent p input false = ClassifiedIntent.NewStory input ∧
    ∀ q hint, classifyIntent p q false ≠ ClassifiedIntent.ModifyStory hint := by
  constructor
  · simp [classifyIntent, h1, h2, h3]
  · intro q hint
    unfold classifyIntent
    by_cases f : p.isFarewell q
    · simp [f]
    · by_cases g : p.isGreeting q
      · simp [f, g]
      · cases hc : p.classicQuery q <;> simp [f, g, hc]

/-- Witness for C3: the modification pattern matches but there is no live
story, so the input classifies as a new story. -/
theorem router_no_modify_without_live_story_witness :
    (RouterPatterns.mk (fun _ => false) (fun _ => false) (fun _ => Option.none)
        (fun _ => true)).isFarewell "make the hero braver" = false ∧
    (RouterPatterns.mk (fun _ => false) (fun _ => false) (fun _ => Option.none)
        (fun _ => true)).isGreeting "make the hero braver" = false ∧
    (RouterPatterns.mk (fun _ => false) (fun _ => false) (fun _ => Option.none)
        (fun _ => true)).classicQuery "make the hero braver" = Option.none ∧
    (classifyIntent
        (RouterPatterns.mk (fun _ => false) (fun _ => false)
          (fun _ => Option.none) (fun _ => true)) "make the hero braver" false
      = ClassifiedIntent.NewStory "make the hero braver" ∧
    ∀ q hint, classifyIntent
        (RouterPatterns.mk (fun _ => false) (fun _ => false)
          (fun _ => Option.none) (fun _ => true)) q false
      ≠ ClassifiedIntent.ModifyStory hint) :=
  ⟨rfl, rfl, rfl,
    router_no_modify_without_live_story _ "make the hero braver" rfl rfl rfl⟩

/-- C5: a submit with empty or whitespace-only input is a no-op — the state
is unchanged and no request is issued; conversely every request actually
issued carries the trimmed, non-empty input. -/
theorem empty_input_never_reaches_generation (s : ClientState)
    (o : RequestOutcome) (now : Nat) :
    (jsTrim s.input = "" → clientStep s o now = (s, Option.none)) ∧
    (∀ req, (clientStep s o now).2 = Option.some req →
      req.user_input = jsTrim s.input ∧ ¬ req.user_input = "") := by
  constructor
  · intro h
    unfold clientStep
    rw [if_pos (Or.inl h)]
  · intro req hreq
    by_cases hc : jsTrim s.input = "" ∨ s.isGenerating = true
    · unfold clientStep at hreq
      rw [if_pos hc] at hreq
      simp at hreq
    · push_neg at hc
      unfold clientStep at hreq
      rw [if_neg (by simp [hc.1, hc.2])] at hreq
      simp only at hreq
      split at hreq <;> (injection hreq with h; subst h; exact ⟨rfl, hc.1⟩)

/-- Witness for C5 on a whitespace-only input. -/
theorem empty_input_never_reaches_generation_witness :
    jsTrim "   " = "" ∧
    clientStep (ClientState.mk [] "   " false Option.none)
        (RequestOutcome.httpFailure "down") 5
      = (ClientState.mk [] "   " false Option.none, Option.none) :=
  ⟨by decide,
    (empty_input_never_reaches_generation
      (ClientState.mk [] "   " false Option.none)
      (RequestOutcome.httpFailure "down") 5).1 (by decide)⟩

/-- C8: submitting while a generation is already in flight changes nothing —
the state (messages and input included) is returned unchanged and no second
request is issued. -/
theorem busy_submit_is_noop (s : ClientState) (o : RequestOutcome) (now : Nat)
    (h : s.isGenerating = true) :
    clientStep s o now = (s, Option.none) := by
  unfold clientStep
  rw [if_pos (Or.inr h)]

/-- Witness for C8 with a non-empty pending input. -/
theorem busy_submit_is_noop_witness :
    (ClientState.mk [] "another story" true (Option.some "t7")).isGenerating
      = true ∧
    clientStep (ClientState.mk [] "another story" true (Option.some "t7"))
        (RequestOutcome.httpFailure "down") 9
      = (ClientState.mk [] "another story" true (Option.some "t7"),
         Option.none) :=
  ⟨rfl,
    busy_submit_is_noop (ClientState.mk [] "another story" true (Option.some "t7"))
      (RequestOutcome.httpFailure "down") 9 rfl⟩

/-- C7: whenever the backend call fails (transport failure, `success = false`,
or a missing/empty `story` field), the conversation gains exactly the user
message and the fixed apology message `errorText`; the thrown error text
never reaches the rendered message list. -/
theorem failure_shows_fixed_apology (s : ClientState) (o : RequestOutcome)
    (now : Nat) (h1 : ¬ jsTrim s.input = "") (h2 : s.isGenerating = false)
    (hf : isFailureOutcome o = true) :
    (clientStep s o now).1.messages
      = s.messages ++ [userMessage now (jsTrim s.input), errorMessage now] ∧
    (errorMessage now).content = errorText ∧
    (errorMessage now).story = Option.none := by
  refine ⟨?_, rfl, rfl⟩
  have hcond : ¬ (jsTrim s.input = "" ∨ s.isGenerating = true) := by
    simp [h1, h2]
  cases o with
  | httpFailure err =>
    simp [clientStep, hcond, processBackend]
  | httpResponse r =>
    have hb : (r.success && truthy r.story) = false := by
      cases hback : (r.success && truthy r.story) with
      | false => rfl
      | true => simp [isFailureOutcome, hback] at hf
    simp [clientStep, hcond, processBackend, hb]

/-- Witness for C7 on a decoded response with `success = false`. -/
theorem failure_shows_fixed_apology_witness :
    ¬ jsTrim "a story" = "" ∧
    (ClientState.mk [] "a story" false Option.none).isGenerating = false ∧
    isFailureOutcome (RequestOutcome.httpResponse
      (BackendResponse.mk false Option.none Option.none Option.none
        (Option.some "upstream budget exceeded") (Option.some "t3"))) = true ∧
    ((clientStep (ClientState.mk [] "a story" false Option.none)
        (RequestOutcome.httpResponse
          (BackendResponse.mk false Option.none Option.none Option.none
            (Option.some "upstream budget exceeded") (Option.some "t3"))) 4).1.messages
      = (ClientState.mk [] "a story" false Option.none).messages
        ++ [userMessage 4 (jsTrim "a story"), errorMessage 4] ∧
    (errorMessage 4).content = errorText ∧
    (errorMessage 4).story = Option.none) :=
  ⟨by decide, rfl, rfl,
    failure_shows_fixed_apology (ClientState.mk [] "a story" false Option.none)
      (RequestOutcome.httpResponse
        (BackendResponse.mk false Option.none Option.none Option.none
          (Option.some "upstream budget exceeded") (Option.some "t3"))) 4
      (by decide) rfl rfl⟩

theorem processBackend_fst_response (tid0 : Option String) (r : BackendResponse)
    (ht : truthy r.thread_id = true) :
    (processBackend tid0 (RequestOutcome.httpResponse r)).1 = r.thread_id := by
  unfold processBackend
  simp only [ht, if_true]
  split
  · split <;> rfl
  · rfl

theorem clientStep_issues_request (s : ClientState) (o : RequestOutcome)
    (now : Nat) (h1 : ¬ jsTrim s.input = "") (h2 : s.isGenerating = false) :
    (clientStep s o now).2
      = Option.some (StoryRequest.mk (jsTrim s.input) "medium"
          (orUndefined s.threadId)) := by
  unfold clientStep
  rw [if_neg (by simp [h1, h2])]
  dsimp only
  split <;> rfl

theorem clientStep_response_threadId (s : ClientState) (r : BackendResponse)
    (now : Nat) (h1 : ¬ jsTrim s.input = "") (h2 : s.isGenerating = false)
    (ht : truthy r.thread_id = true) :
    (clientStep s (RequestOutcome.httpResponse r) now).1.threadId = r.thread_id
      ∧ (clientStep s (RequestOutcome.httpResponse r) now).1.isGenerating
        = false := by
  unfold clientStep
  rw [if_neg (by simp [h1, h2])]
  dsimp only
  split <;> simp [processBackend_fst_response _ _ ht]

/-- C6: after a submit whose decoded response carries a truthy `thread_id`,
the client stores that id, and the next submit (with new non-empty input)
sends exactly that id in its request; on the modelled backend side every
non-error formatted response carries the thread id it was built with. -/
theorem thread_id_round_trip (s : ClientState) (r : BackendResponse)
    (i2 : String) (o2 : RequestOutcome) (now now2 : Nat)
    (h1 : ¬ jsTrim s.input = "") (h2 : s.isGenerating = false)
    (ht : truthy r.thread_id = true) (h3 : ¬ jsTrim i2 = "") :
    (clientStep s (RequestOutcome.httpResponse r) now).1.threadId = r.thread_id
      ∧ (clientStep
            (setInput (clientStep s (RequestOutcome.httpResponse r) now).1 i2)
            o2 now2).2
        = Option.some (StoryRequest.mk (jsTrim i2) "medium" r.thread_id)
      ∧ ∀ lr m tid, (formatLoopResult lr m tid).threadIdOf
          = Option.some tid := by
  obtain ⟨hti, hgen⟩ := clientStep_response_threadId s r now h1 h2 ht
  refine ⟨hti, ?_, ?_⟩
  · have h1b : ¬ jsTrim (setInput
        (clientStep s (RequestOutcome.httpResponse r) now).1 i2).input = "" := by
      simpa [setInput] using h3
    have h2b : (setInput
        (clientStep s (RequestOutcome.httpResponse r) now).1 i2).isGenerating
          = false := by
      simpa [setInput] using hgen
    rw [clientStep_issues_request _ o2 now2 h1b h2b]
    simp [setInput, hti, orUndefined_of_truthy _ ht]
  · intro lr m tid
    cases hout : lr.outcome <;>
      simp [formatLoopResult, hout, FormattedResponse.threadIdOf]

/-- Witness for C6 on a concrete two-turn conversation. -/
theorem thread_id_round_trip_witness :
    ¬ jsTrim "a mouse story" = "" ∧
    (ClientState.mk [] "a mouse story" false Option.none).isGenerating = false ∧
    truthy (BackendResponse.mk true (Option.some "Once upon a time")
        (Option.some "The Brave Mouse") (Option.some "Be brave") Option.none
        (Option.some "thread-42")).thread_id = true ∧
    ¬ jsTrim "make the hero braver" = "" ∧
    ((clientStep (ClientState.mk [] "a mouse story" false Option.none)
        (RequestOutcome.httpResponse
          (BackendResponse.mk true (Option.some "Once upon a time")
            (Option.some "The Brave Mouse") (Option.some "Be brave") Option.none
            (Option.some "thread-42"))) 1).1.threadId = Option.some "thread-42"
      ∧ (clientStep
            (setInput (clientStep (ClientState.mk [] "a mouse story" false Option.none)
              (RequestOutcome.httpResponse
                (BackendResponse.mk true (Option.some "Once upon a time")
                  (Option.some "The Brave Mouse") (Option.some "Be brave") Option.none
                  (Option.some "thread-42"))) 1).1 "make the hero braver")
            (RequestOutcome.httpFailure "down") 2).2
        = Option.some (StoryRequest.mk (jsTrim "make the hero braver") "medium"
            (Option.some "thread-42"))
      ∧ ∀ lr m tid, (formatLoopResult lr m tid).threadIdOf
          = Option.some tid) :=
  ⟨by decide, rfl, rfl, by decide,
    thread_id_round_trip (ClientState.mk [] "a mouse story" false Option.none)
      (BackendResponse.mk true (Option.some "Once upon a time")
        (Option.some "The Brave Mouse") (Option.some "Be brave") Option.none
        (Option.some "thread-42"))
      "make the hero braver" (RequestOutcome.httpFailure "down") 1 2
      (by decide) rfl rfl (by decide)⟩

/-- On a decoded response with `success` and a truthy `story`, the backend
processing resolves with `StoryData`: a story record when `title` is truthy,
a conversational record otherwise. -/
theorem processBackend_snd_success (tid0 : Option String) (r : BackendResponse)
    (hs : r.success = true) (hst : truthy r.story = true) :
    (processBackend tid0 (RequestOutcome.httpResponse r)).2
      = Except.ok (if truthy r.title = true then
          StoryData.mk r.title (r.story.getD "") r.moral false
        else StoryData.mk Option.none (r.story.getD "") Option.none true) := by
  unfold processBackend
  dsimp only
  rw [if_pos (by simp [hs, hst])]
  by_cases htitle : truthy r.title = true
  · rw [if_pos htitle, if_pos htitle]
  · rw [if_neg htitle, if_neg htitle]

/-- C4: for a successful response with a non-empty `story`, the assistant
message just appended renders as a flip card (title, story text, moral)
exactly when the `title` field is truthy, and as a plain conversational
bubble holding the `story` text when it is not. -/
theorem story_flip_card_iff_title (s : ClientState) (r : BackendResponse)
    (now : Nat) (h1 : ¬ jsTrim s.input = "") (h2 : s.isGenerating = false)
    (hs : r.success = true) (hst : truthy r.story = true) :
    ((clientStep s (RequestOutcome.httpResponse r) now).1.messages.getLast?).map
        renderAssistant
      = Option.some (if truthy r.title = true then
          Rendered.card (r.title.getD "") (r.story.getD "") (r.moral.getD "")
        else Rendered.bubble (r.story.getD "")) := by
  unfold clientStep
  rw [if_neg (by simp [h1, h2])]
  dsimp only
  rw [processBackend_snd_success _ _ hs hst]
  dsimp only
  rw [List.getLast?_concat]
  by_cases htitle : truthy r.title = true
  · rw [if_pos htitle, if_pos htitle]
    simp [assistantMessage, renderAssistant, jsOr_empty, jsOrS_empty]
  · rw [if_neg htitle, if_neg htitle]
    simp [assistantMessage, renderAssistant]

/-- Witness for C4: a titled response renders as the flip card. -/
theorem story_flip_card_iff_title_witness :
    ¬ jsTrim "a mouse story" = "" ∧
    (ClientState.mk [] "a mouse story" false Option.none).isGenerating = false ∧
    (BackendResponse.mk true (Option.some "Once upon a time")
        (Option.some "The Brave Mouse") (Option.some "Be brave") Option.none
        (Option.some "t1")).success = true ∧
    truthy (BackendResponse.mk true (Option.some "Once upon a time")
        (Option.some "The Brave Mouse") (Option.some "Be brave") Option.none
        (Option.some "t1")).story = true ∧
    ((clientStep (ClientState.mk [] "a mouse story" false Option.none)
        (RequestOutcome.httpResponse
          (BackendResponse.mk true (Option.some "Once upon a time")
            (Option.some "The Brave Mouse") (Option.some "Be brave") Option.none
            (Option.some "t1"))) 3).1.messages.getLast?).map renderAssistant
      = Option.some (if truthy (BackendResponse.mk true
            (Option.some "Once upon a time") (Option.some "The Brave Mouse")
            (Option.some "Be brave") Option.none (Option.some "t1")).title = true
          then Rendered.card
            ((BackendResponse.mk true (Option.some "Once upon a time")
              (Option.some "The Brave Mouse") (Option.some "Be brave") Option.none
              (Option.some "t1")).title.getD "")
            ((BackendResponse.mk true (Option.some "Once upon a time")
              (Option.some "The Brave Mouse") (Option.some "Be brave") Option.none
              (Option.some "t1")).story.getD "")
            ((BackendResponse.mk true (Option.some "Once upon a time")
              (Option.some "The Brave Mouse") (Option.some "Be brave") Option.none
              (Option.some "t1")).moral.getD "")
          else Rendered.bubble ((BackendResponse.mk true
            (Option.some "Once upon a time") (Option.some "The Brave Mouse")
            (Option.some "Be brave") Option.none (Option.some "t1")).story.getD "")) :=
  ⟨by decide, rfl, rfl, rfl,
    story_flip_card_iff_title (ClientState.mk [] "a mouse story" false Option.none)
      (BackendResponse.mk true (Option.some "Once upon a time")
        (Option.some "The Brave Mouse") (Option.some "Be brave") Option.none
        (Option.some "t1")) 3 (by decide) rfl rfl rfl⟩

/-- C9: a flip card mounts showing the story face, each right-click toggles
the flipped state, two right-clicks cancel out, and after `n` right-clicks
the story face shows exactly when `n` is even and the moral face when `n`
is odd. -/
theorem flip_card_right_click_parity :
    rightClicks 0 = false ∧
    (∀ b, handleContextMenu (handleContextMenu b) = b) ∧
    (∀ n, displaySide (rightClicks n)
      = if n % 2 = 0 then CardSide.story else CardSide.moral) := by
  refine ⟨rfl, fun b => by simp [handleContextMenu], fun n => ?_⟩
  rw [rightClicks_parity]
  by_cases h : n % 2 = 0
  · have h1 : ¬ n % 2 = 1 := by omega
    simp [displaySide, h, h1]
  · have h1 : n % 2 = 1 := by omega
    simp [displaySide, h, h1]

/-- C10: `getExamples` never rejects — every failed GET resolves with the
fixed fallback list of three prompts, and every successful GET resolves
with the server-provided examples array. -/
theorem getExamples_never_rejects :
    (∀ err, getExamples (Except.error err) = fallbackExamples) ∧
    fallbackExamples.length = 3 ∧
    (∀ exs, getExamples (Except.ok exs) = exs) :=
  ⟨fun _ => rfl, rfl, fun _ => rfl⟩
